import Mathlib

/-!
Verification of the MovieLens ELT pipeline against its specification.

The pipeline's state lives in database relations; we embed each relation as a
Lean list of rows, with `Option` for nullable SQL columns, `Int` for SQL
integers, and `ℚ` for the `rating` column.  Each SQL statement of the scripts
(`transform_data.py`, `create_warehouse.py`, `data_quality.py`,
`run_analytics.py`, `load_staging.py`) is embedded as a pure Lean function on
these lists; as SQL tables are unordered multisets, the particular list order
produced by a function is an artifact of the embedding.
-/

/-! ## Staging relations (raw mirrors of the CSV files, no constraints) -/

/-- Row of `staging_movies`: every column may be NULL. -/
structure StagingMovie where
  movieId : Option Int
  title : Option String
  genres : Option String
deriving DecidableEq

/-- Row of `staging_ratings`: every column may be NULL. -/
structure StagingRating where
  userId : Option Int
  movieId : Option Int
  rating : Option ℚ
  timestamp : Option Int
deriving DecidableEq

/-! ## SQL string primitives used by `transform_data.py` -/

/-- Postgres `TRIM(s)` with the default character set: remove leading and
trailing space characters. -/
def pgTrim (s : String) : String :=
  String.mk (((s.toList.dropWhile (fun c => c = ' ')).reverse.dropWhile
    (fun c => c = ' ')).reverse)

/-- Whether a reversed character list begins with `)` `digit` `digit` `digit`
`digit` `(`, i.e. the original string ends in a parenthesized four-digit
year. -/
def endsWithYearRev : List Char → Bool
  | ')' :: d1 :: d2 :: d3 :: d4 :: '(' :: _ =>
      d1.isDigit && d2.isDigit && d3.isDigit && d4.isDigit
  | _ => false

/-- Postgres `title ~ '\(\d{4}\)$'`: the string ends in `(YYYY)` for four
digits `YYYY`. -/
def endsWithYear (s : String) : Bool := endsWithYearRev s.toList.reverse

/-- Numeric value of a digit character. -/
def digitVal (c : Char) : Int := Int.ofNat (c.toNat - ('0').toNat)

/-- Extract the captured four-digit number from a reversed character list
matching the trailing-year pattern. -/
def extractYearRev : List Char → Option Int
  | ')' :: d1 :: d2 :: d3 :: d4 :: '(' :: _ =>
      if d1.isDigit && d2.isDigit && d3.isDigit && d4.isDigit then
        some (1000 * digitVal d4 + 100 * digitVal d3 + 10 * digitVal d2 + digitVal d1)
      else none
  | _ => none

/-- Postgres `CAST(SUBSTRING(title FROM '\(([0-9]{4})\)$') AS INTEGER)` on a
title known to match the pattern. -/
def extractYear (s : String) : Option Int := extractYearRev s.toList.reverse

/-- Postgres `REGEXP_REPLACE(s, '\s*\([0-9]{4}\)$', '')` on a string that ends
in `(YYYY)`: drop the six suffix characters and any whitespace immediately
before them. -/
def stripYearSuffix (s : String) : String :=
  String.mk (((s.toList.reverse.drop 6).dropWhile Char.isWhitespace).reverse)

/-! ## Transformer: `clean_movies_table` (transform_data.py lines 72-96) -/

/-- Row of `cleaned_movies`.  `movieId` is non-null by the `WHERE` filter;
`title` and `clean_title` inherit nullability from the staging title; `genres`
is non-null thanks to `COALESCE`. -/
structure CleanedMovie where
  movieId : Int
  title : Option String
  release_year : Option Int
  clean_title : Option String
  genres : String
deriving DecidableEq

/-- The `SELECT` expression list of the `CREATE TABLE cleaned_movies AS`
statement, applied to one staging row whose `movieId` is `some i`.  A NULL
title makes the regex match NULL (treated as not-true by `CASE`), so both
derived title fields stay NULL. -/
def cleanMovieRow (i : Int) (s : StagingMovie) : CleanedMovie :=
  { movieId := i
    title := s.title.map pgTrim
    release_year :=
      match s.title with
      | some t => if endsWithYear t then extractYear t else none
      | none => none
    clean_title :=
      s.title.map (fun t => if endsWithYear t then pgTrim (stripYearSuffix t) else pgTrim t)
    genres :=
      match s.genres with
      | some g => pgTrim g
      | none => "Unknown" }

/-- `transform_data.clean_movies_table`: `SELECT DISTINCT <row expressions>
FROM staging_movies WHERE "movieId" IS NOT NULL`.  `DISTINCT` applies to the
whole projected row and is embedded as `List.dedup`. -/
def clean_movies_table (stg : List StagingMovie) : List CleanedMovie :=
  (stg.filterMap (fun s => s.movieId.map (fun i => cleanMovieRow i s))).dedup

/-! ## Transformer: `clean_ratings_table` (transform_data.py lines 150-171) -/

/-- Row of `cleaned_ratings`.  `rating_datetime` is Postgres
`TO_TIMESTAMP(timestamp)`; since that conversion is an injection of the
integer second count into calendar timestamps, the embedding carries the same
integer (or NULL when the staging timestamp is NULL). -/
structure CleanedRating where
  userId : Int
  movieId : Int
  rating : ℚ
  rating_timestamp : Option Int
  rating_datetime : Option Int
deriving DecidableEq

/-- The `WHERE` clause of the cleaned-ratings query: non-null user id, movie
id and rating, and `rating >= 0.5 AND rating <= 5.0`. -/
def validRating (r : StagingRating) : Bool :=
  r.userId.isSome && r.movieId.isSome &&
    (match r.rating with
     | some q => decide (mkRat 1 2 ≤ q) && decide (q ≤ 5)
     | none => false)

/-- The `DISTINCT ON` grouping key `("userId", "movieId")`. -/
def ratingKey (r : StagingRating) : Option Int × Option Int := (r.userId, r.movieId)

/-- Sort value of the `timestamp` column under `ORDER BY timestamp DESC`:
Postgres places NULLs first in descending order, so NULL compares above every
integer. -/
def tsVal (t : Option Int) : WithTop Int :=
  match t with
  | none => ⊤
  | some x => (x : WithTop Int)

/-- Strict comparison of two `timestamp` values in the `ORDER BY timestamp
DESC` preference order: `tsLt a b` holds when a row with timestamp `b` is
placed strictly before a row with timestamp `a` (NULL first, then larger
integers). -/
def tsLt (a b : Option Int) : Bool :=
  match a, b with
  | some x, some y => decide (x < y)
  | some _, none => true
  | none, _ => false

/-- One step of scanning a group for its winning row: keep the current
candidate unless the next row's timestamp is strictly preferred. -/
def pickStep (acc : Option StagingRating) (r : StagingRating) : Option StagingRating :=
  match acc with
  | none => some r
  | some a => if tsLt a.timestamp r.timestamp then some r else some a

/-- The row a group contributes under `DISTINCT ON`: the first row of the
group whose timestamp is maximal in the `ORDER BY timestamp DESC` order.
Postgres leaves the choice among equal timestamps unspecified; the embedding
resolves ties to the first such row in list order. -/
def pickLatest (l : List StagingRating) : Option StagingRating :=
  l.foldl pickStep none

/-- The row selected by `DISTINCT ON ("userId", "movieId") ... ORDER BY
"userId", "movieId", timestamp DESC` for one key, among the rows passing the
`WHERE` filter. -/
def latestFor (stg : List StagingRating) (k : Option Int × Option Int) :
    Option StagingRating :=
  pickLatest ((stg.filter validRating).filter (fun r => ratingKey r = k))

/-- Projection of a surviving (hence valid) staging row onto the
`cleaned_ratings` columns. -/
def mkCleanedRating (r : StagingRating) : CleanedRating :=
  { userId := r.userId.getD 0
    movieId := r.movieId.getD 0
    rating := r.rating.getD 0
    rating_timestamp := r.timestamp
    rating_datetime := r.timestamp }

/-- `transform_data.clean_ratings_table`: filter to valid rows, then keep one
row per `("userId", "movieId")` pair, the one with the maximum timestamp. -/
def clean_ratings_table (stg : List StagingRating) : List CleanedRating :=
  (((stg.filter validRating).map ratingKey).dedup).filterMap
    (fun k => (latestFor stg k).map mkCleanedRating)

/-- The `("userId", "movieId")` key of a cleaned rating row. -/
def cleanedKey (c : CleanedRating) : Int × Int := (c.userId, c.movieId)

/-! ## Transformer stage as a state transition (for idempotence) -/

/-- Database state visible to the transformer: the staging relations it reads
and the cleaned relations it drops and recreates (`none` = table absent). -/
structure PipelineState where
  staging_movies : List StagingMovie
  staging_ratings : List StagingRating
  cleaned_movies : Option (List CleanedMovie)
  cleaned_ratings : Option (List CleanedRating)
deriving DecidableEq

/-- `transform_data.main`: drop and recreate both cleaned relations from the
staging relations, leaving staging untouched. -/
def run_transformer (db : PipelineState) : PipelineState :=
  { db with
    cleaned_movies := some (clean_movies_table db.staging_movies)
    cleaned_ratings := some (clean_ratings_table db.staging_ratings) }

/-! ## Warehouse builder: `create_warehouse.py` -/

/-- Row of `dim_movies` (surrogate `movie_key` and `created_at` omitted: they
are generated metadata, not derived from the cleaned data). -/
structure DimMovie where
  movie_id : Int
  title : String
  clean_title : Option String
  release_year : Option Int
deriving DecidableEq

/-- Error raised by Postgres when the `INSERT INTO dim_movies ... SELECT ...
FROM cleaned_movies` meets a NULL `title` (the column is declared
`NOT NULL`). -/
def null_title_error : String := "null value in column title violates not-null constraint"

/-- Error raised when the insert meets a repeated `movieId` (`movie_id` is
declared `UNIQUE`). -/
def duplicate_movie_id_error : String := "duplicate key value violates unique constraint"

/-- Projection of a cleaned movie row onto the `dim_movies` columns, defined
on rows whose title is non-null. -/
def dimMovieRow (m : CleanedMovie) : DimMovie :=
  { movie_id := m.movieId
    title := m.title.getD (String.mk [])
    clean_title := m.clean_title
    release_year := m.release_year }

/-- `create_warehouse.create_dim_movies`: recreate `dim_movies` and insert
every `cleaned_movies` row.  The statement succeeds iff no inserted row
violates the `title NOT NULL` or `movie_id UNIQUE` constraint; which of two
simultaneous violations Postgres reports first is abstracted by checking the
NULL-title constraint first. -/
def create_dim_movies (cm : List CleanedMovie) : Except String (List DimMovie) :=
  if cm.any (fun m => m.title.isNone) then Except.error null_title_error
  else if (cm.map CleanedMovie.movieId).Nodup then Except.ok (cm.map dimMovieRow)
  else Except.error duplicate_movie_id_error

/-- Postgres `string_to_array(s, '|')` on the character list of `s`: split at
every `|`, keeping empty pieces. -/
def splitPipe : List Char → List (List Char)
  | [] => [[]]
  | c :: rest =>
    let r := splitPipe rest
    if c = '|' then [] :: r
    else
      match r with
      | [] => [[c]]
      | h :: t => (c :: h) :: t

/-- Postgres `string_to_array(s, '|')`: the empty string yields the empty
array, otherwise the pipe-separated pieces. -/
def splitGenres (s : String) : List String :=
  if s = String.mk [] then [] else (splitPipe s.toList).map String.mk

/-- `create_warehouse.create_dim_genres`: `SELECT DISTINCT
TRIM(unnest(string_to_array(genres, '|'))) FROM cleaned_movies WHERE genres
IS NOT NULL AND genres != '' ORDER BY genre_name` (the cleaned genres column
is never NULL, so only the non-empty filter is material).  The list position
of a name is its `genre_key` (the `SERIAL` key follows insert order, which
the `ORDER BY` makes the sorted order). -/
def create_dim_genres (cm : List CleanedMovie) : List String :=
  (((cm.filter (fun m => !(m.genres = String.mk []))).flatMap
      (fun m => (splitGenres m.genres).map pgTrim)).dedup).mergeSort
    (fun a b => decide (a ≤ b))

/-- Position of a genre name in a genre list: the `JOIN dim_genres g ON
TRIM(gn) = g.genre_name` resolves a trimmed split genre to its key, or drops
the row when the name is absent. -/
def lookupKey : List String → String → Option Nat
  | [], _ => none
  | g :: gs, n => if g = n then some 0 else (lookupKey gs n).map (fun k => k + 1)

/-- `create_warehouse.create_bridge_movie_genres`: fan every `cleaned_movies`
row out to one row per split genre, join the trimmed name to its genre key,
and insert the distinct `(movie_id, genre_key)` pairs. -/
def create_bridge_movie_genres (cm : List CleanedMovie) : List (Int × Nat) :=
  ((cm.flatMap (fun m => (splitGenres m.genres).map (fun gn => (m.movieId, pgTrim gn)))).filterMap
      (fun p => (lookupKey (create_dim_genres cm) p.2).map (fun k => (p.1, k)))).dedup

/-! ## Quality gate: `data_quality.py` -/

/-- One named assertion of the gate: the scalar its SQL query returns against
the current database (or the error the query raises), the predicate
`expected_condition`, and a human-readable description. -/
structure QualityCheck where
  check_name : String
  query_result : Except String ℚ
  expected_condition : ℚ → Bool
  description : String

/-- Entry appended to `DataQualityChecker.results` for one executed check. -/
structure CheckResult where
  check : String
  status : String
  value : ℚ
  description : String

/-- Mutable state of a `DataQualityChecker`. -/
structure CheckerState where
  checks_passed : Nat
  checks_failed : Nat
  results : List CheckResult

/-- Checker state built by `DataQualityChecker.__init__`. -/
def initial_checker : CheckerState := { checks_passed := 0, checks_failed := 0, results := [] }

/-- Status string recorded for a check outcome. -/
def statusString (passed : Bool) : String :=
  match passed with
  | true => "PASSED"
  | false => "FAILED"

/-- `DataQualityChecker.run_check`: evaluate the check's query; on success
record pass/fail with the observed scalar and description and bump the
matching counter; on a query error bump only the failed counter (the `except`
clause logs and returns `False` without re-raising) .  Returns the new state
and the boolean the method returns. -/
def run_check (st : CheckerState) (c : QualityCheck) : CheckerState × Bool :=
  match c.query_result with
  | Except.error _ =>
      ({ st with checks_failed := st.checks_failed + 1 }, false)
  | Except.ok v =>
      let passed := c.expected_condition v
      ({ checks_passed := st.checks_passed + (if passed then 1 else 0)
         checks_failed := st.checks_failed + (if passed then 0 else 1)
         results := st.results ++
           [{ check := c.check_name, status := statusString passed, value := v,
              description := c.description }] }, passed)

/-- `run_check` in the error-signature shared by the other stages: the method
catches every exception itself, so it always returns normally. -/
def run_check_stage (st : CheckerState) (c : QualityCheck) :
    Except String (CheckerState × Bool) :=
  Except.ok (run_check st c)

/-- Whether a check's query evaluation succeeded. -/
def queryOk (c : QualityCheck) : Bool :=
  match c.query_result with
  | Except.ok _ => true
  | Except.error _ => false

/-- Whether a check counts as passed: its query succeeded and the predicate
holds of the observed scalar. -/
def check_passed (c : QualityCheck) : Bool :=
  match c.query_result with
  | Except.ok v => c.expected_condition v
  | Except.error _ => false

/-- The results entry `run_check` records for a check whose query
succeeded. -/
def record_of (c : QualityCheck) : CheckResult :=
  match c.query_result with
  | Except.ok v =>
      { check := c.check_name, status := statusString (c.expected_condition v),
        value := v, description := c.description }
  | Except.error _ =>
      { check := c.check_name, status := statusString false, value := 0,
        description := c.description }

/-- `data_quality.main`'s check loop: run the fixed ordered battery of
assertions, threading the checker state. -/
def run_all_checks (st : CheckerState) (cs : List QualityCheck) : CheckerState :=
  cs.foldl (fun s c => (run_check s c).1) st

/-- Overall boolean `data_quality.main` returns: `True` iff the summary's
failed count is zero. -/
def data_quality_main (cs : List QualityCheck) : Bool :=
  (run_all_checks initial_checker cs).checks_failed == 0

/-! ## Error propagation wrappers (`try/except ... raise` bodies) -/

/-- `load_staging.load_csv_to_staging` viewed through its error behavior: a
missing file raises `FileNotFoundError`; any database error raised by the
chunked `to_sql` writes is logged and re-raised unchanged. -/
def load_csv_to_staging (file_exists : Bool) (db_write : Except String Nat) :
    Except String Nat :=
  if file_exists then db_write else Except.error ("File not found")

/-- `transform_data.clean_movies_table` stage wrapper: a database error while
reading `staging_movies` is logged and re-raised; otherwise the cleaned
relation is produced. -/
def clean_movies_stage (staging_read : Except String (List StagingMovie)) :
    Except String (List CleanedMovie) :=
  match staging_read with
  | Except.error e => Except.error e
  | Except.ok stg => Except.ok (clean_movies_table stg)

/-- `transform_data.clean_ratings_table` stage wrapper: database errors are
logged and re-raised. -/
def clean_ratings_stage (staging_read : Except String (List StagingRating)) :
    Except String (List CleanedRating) :=
  match staging_read with
  | Except.error e => Except.error e
  | Except.ok stg => Except.ok (clean_ratings_table stg)

/-- `create_warehouse.create_dim_movies` stage wrapper: database errors while
reading `cleaned_movies` are logged and re-raised, and the insert itself may
raise a constraint violation. -/
def create_dim_movies_stage (cleaned_read : Except String (List CleanedMovie)) :
    Except String (List DimMovie) :=
  match cleaned_read with
  | Except.error e => Except.error e
  | Except.ok cm => create_dim_movies cm

/-- Whether a stage outcome is an error (a raised exception). -/
def stageRaised {α : Type} (r : Except String α) : Bool :=
  match r with
  | Except.error _ => true
  | Except.ok _ => false

/-- Concrete quality check whose SQL query raises, for exercising
`run_check`'s error path. -/
def err_check_example : QualityCheck :=
  { check_name := "Ratings - Valid Rating Range"
    query_result := Except.error ("relation cleaned_ratings does not exist")
    expected_condition := fun v => v == 0
    description := "Ratings should be between 0.5 and 5.0" }

/-! ## Analytics reporter: `run_analytics.py` -/

/-- One analytics job of `run_analytics.py`: the SQL text, the CSV filename
and the logged description. -/
structure AnalyticsJob where
  sql : String
  output_filename : String
  description : String

/-- Task 6a. -/
def top_10_movies_by_avg_rating : AnalyticsJob :=
  { sql := "
        SELECT
            m.movie_id,
            m.title,
            m.release_year,
            ROUND(AVG(f.rating)::numeric, 2) as avg_rating,
            COUNT(f.rating) as num_ratings
        FROM fact_ratings f
        JOIN dim_movies m ON f.movie_id = m.movie_id
        GROUP BY m.movie_id, m.title, m.release_year
        HAVING COUNT(f.rating) >= 100
        ORDER BY avg_rating DESC, num_ratings DESC
        LIMIT 10
    "
    output_filename := "top_10_movies_by_avg_rating.csv"
    description := "Top 10 movies by average rating (min 100 ratings)" }

/-- Task 6b. -/
def least_10_movies_by_avg_rating : AnalyticsJob :=
  { sql := "
        SELECT
            m.movie_id,
            m.title,
            m.release_year,
            ROUND(AVG(f.rating)::numeric, 2) as avg_rating,
            COUNT(f.rating) as num_ratings
        FROM fact_ratings f
        JOIN dim_movies m ON f.movie_id = m.movie_id
        GROUP BY m.movie_id, m.title, m.release_year
        HAVING COUNT(f.rating) >= 100
        ORDER BY avg_rating ASC, num_ratings DESC
        LIMIT 10
    "
    output_filename := "least_10_movies_by_avg_rating.csv"
    description := "Least 10 movies by average rating (min 100 ratings)" }

/-- Task 6c. -/
def top_5_genres_by_num_ratings : AnalyticsJob :=
  { sql := "
        SELECT
            g.genre_name,
            COUNT(f.rating) as num_ratings,
            ROUND(AVG(f.rating)::numeric, 2) as avg_rating
        FROM fact_ratings f
        JOIN bridge_movie_genres bmg ON f.movie_id = bmg.movie_id
        JOIN dim_genres g ON bmg.genre_key = g.genre_key
        GROUP BY g.genre_name
        ORDER BY num_ratings DESC
        LIMIT 5
    "
    output_filename := "top_5_genres_by_num_ratings.csv"
    description := "Top 5 genres by number of ratings" }

/-- Task 6d. -/
def least_5_genres_by_num_ratings : AnalyticsJob :=
  { sql := "
        SELECT
            g.genre_name,
            COUNT(f.rating) as num_ratings,
            ROUND(AVG(f.rating)::numeric, 2) as avg_rating
        FROM fact_ratings f
        JOIN bridge_movie_genres bmg ON f.movie_id = bmg.movie_id
        JOIN dim_genres g ON bmg.genre_key = g.genre_key
        GROUP BY g.genre_name
        ORDER BY num_ratings ASC
        LIMIT 5
    "
    output_filename := "least_5_genres_by_num_ratings.csv"
    description := "Least 5 genres by number of ratings" }

/-- The analyses `run_analytics.main` executes, in order. -/
def analytics_jobs : List AnalyticsJob :=
  [top_10_movies_by_avg_rating, least_10_movies_by_avg_rating,
   top_5_genres_by_num_ratings, least_5_genres_by_num_ratings]

/-- File-system effect of one `run_query_to_csv` call. -/
structure CsvArtifact where
  path : String
  has_header_row : Bool
  overwrites_existing : Bool
deriving DecidableEq

/-- `DATA_OUTPUT_PATH` of `config/config.py`. -/
def data_output_path : String := "/home/mmesoma/movielens_elt_pipeline/data/output"

/-- `run_analytics.run_query_to_csv`: `DataFrame.to_csv(path, index=False)`
writes the result set under the job's filename in the fixed output
directory, starting with a header row and truncating any existing file. -/
def run_query_to_csv (job : AnalyticsJob) : CsvArtifact :=
  { path := data_output_path ++ ("/") ++ job.output_filename
    has_header_row := true
    overwrites_existing := true }

/-- The artifacts `run_analytics.main` writes, one per query. -/
def run_analytics_main : List CsvArtifact := analytics_jobs.map run_query_to_csv

/-- Whether SQL text is a plain `SELECT` statement (read-only). -/
def startsWithSelect : List Char → Bool
  | 'S' :: 'E' :: 'L' :: 'E' :: 'C' :: 'T' :: _ => true
  | _ => false

/-- Read-only check on a query: after leading whitespace the text is a
`SELECT` statement. -/
def sqlIsReadOnlySelect (s : String) : Bool :=
  startsWithSelect (s.toList.dropWhile Char.isWhitespace)

/-! ## Concrete contents used to exercise the operations -/

/-- Staging movies with one `movieId` appearing under two different titles. -/
def dup_movies_staging : List StagingMovie :=
  [{ movieId := some 1, title := some ("A"), genres := some ("Action") },
   { movieId := some 1, title := some ("B"), genres := some ("Action") }]

/-- Staging movie whose genres column holds the empty string. -/
def empty_genres_staging : List StagingMovie :=
  [{ movieId := some 1, title := some ("A"), genres := some (String.mk []) }]

/-- Staging movie whose genres column is NULL. -/
def null_genres_staging : List StagingMovie :=
  [{ movieId := some 2, title := some ("B"), genres := none }]

/-- Staging movie whose title carries a trailing space after the year. -/
def trailing_space_staging : List StagingMovie :=
  [{ movieId := some 1, title := some ("Toy Story (1995) "), genres := some ("Adventure") }]

/-- Staging movie with a non-null identifier but a NULL title. -/
def null_title_staging : List StagingMovie :=
  [{ movieId := some 7, title := none, genres := some ("Action") }]

/-- The first staging movie of the specification's year-extraction example. -/
def toy_story_row : StagingMovie :=
  { movieId := some 1, title := some ("Toy Story (1995)"), genres := some ("Adventure") }

/-- The second staging movie of the specification's year-extraction example. -/
def heat_row : StagingMovie :=
  { movieId := some 2, title := some ("Heat"), genres := some ("Action") }

/-- The two staging movies of the specification's year-extraction example. -/
def example_movies_staging : List StagingMovie := [toy_story_row, heat_row]

/-- The staging ratings of the specification's end-to-end scenario: user 1
rates movie 1 twice (timestamps 100 and 200) and user 2 rates movie 2. -/
def ratings_example_staging : List StagingRating :=
  [{ userId := some 1, movieId := some 1, rating := some 4, timestamp := some 100 },
   { userId := some 1, movieId := some 1, rating := some 5, timestamp := some 200 },
   { userId := some 2, movieId := some 2, rating := some 3, timestamp := some 50 }]

/-- A cleaned movie whose genre string fans out to two genres. -/
def bridge_example_movies : List CleanedMovie :=
  [{ movieId := 1, title := some ("AC"), release_year := none,
     clean_title := some ("AC"), genres := "Action|Comedy" }]

/-- A two-assertion battery whose first assertion fails and whose second
passes, both queries succeeding. -/
def checks_example : List QualityCheck :=
  [{ check_name := "Movies - Table Not Empty", query_result := Except.ok 0,
     expected_condition := fun v => decide (0 < v),
     description := "Table should have at least 1 row" },
   { check_name := "Movies - No NULL movieId", query_result := Except.ok 0,
     expected_condition := fun v => v == 0,
     description := "movieId should never be NULL" }]

/-! ## Helper lemmas about the timestamp order and group scans -/

theorem tsLt_irrefl (a : Option Int) : tsLt a a = false := by
  cases a <;> simp [tsLt]

theorem tsLt_trans_neg {a b c : Option Int} (h1 : tsLt a b = false) (h2 : tsLt c a = false) :
    tsLt c b = false := by
  cases a <;> cases b <;> cases c <;> simp_all [tsLt] <;> omega

theorem tsLt_true_neg {a b c : Option Int} (h1 : tsLt a b = true) (h2 : tsLt c b = false) :
    tsLt c a = false := by
  cases a <;> cases b <;> cases c <;> simp_all [tsLt] <;> omega

theorem tsLt_false_iff_le (a b : Option Int) : tsLt a b = false ↔ tsVal b ≤ tsVal a := by
  cases a <;> cases b <;>
    simp [tsLt, tsVal, WithTop.coe_le_coe, le_top, top_le_iff, Int.not_lt]

theorem foldl_pickStep_mem :
    ∀ (l : List StagingRating) (acc : Option StagingRating) (r : StagingRating),
      l.foldl pickStep acc = some r → acc = some r ∨ r ∈ l := by
  intro l
  induction l with
  | nil => intro acc r h; exact Or.inl h
  | cons x xs ih =>
    intro acc r h
    rcases ih (pickStep acc x) r h with h' | h'
    · cases acc with
      | none =>
        simp [pickStep] at h'
        exact Or.inr (by simp [h'])
      | some a =>
        by_cases hlt : tsLt a.timestamp x.timestamp = true
        · simp [pickStep, hlt] at h'
          exact Or.inr (by simp [h'])
        · simp [pickStep, hlt] at h'
          exact Or.inl (by simp [h'])
    · exact Or.inr (List.mem_cons_of_mem _ h')

theorem foldl_pickStep_max :
    ∀ (l : List StagingRating) (acc : Option StagingRating) (r : StagingRating),
      l.foldl pickStep acc = some r →
      (∀ s ∈ l, tsLt r.timestamp s.timestamp = false) ∧
      (∀ a, acc = some a → tsLt r.timestamp a.timestamp = false) := by
  intro l
  induction l with
  | nil =>
    intro acc r h
    refine ⟨fun s hs => absurd hs (List.not_mem_nil s), ?_⟩
    intro a ha
    rw [List.foldl_nil] at h
    rw [ha] at h
    cases h
    exact tsLt_irrefl _
  | cons x xs ih =>
    intro acc r h
    rw [List.foldl_cons] at h
    obtain ⟨hxs, hacc⟩ := ih (pickStep acc x) r h
    have hx : tsLt r.timestamp x.timestamp = false := by
      cases acc with
      | none => exact hacc x rfl
      | some a =>
        by_cases hlt : tsLt a.timestamp x.timestamp = true
        · exact hacc x (by simp [pickStep, hlt])
        · have ha : tsLt r.timestamp a.timestamp = false :=
            hacc a (by simp [pickStep, hlt])
          exact tsLt_trans_neg (Bool.eq_false_iff.mpr (fun hc => hlt hc)) ha
    refine ⟨?_, ?_⟩
    · intro s hs
      rcases List.mem_cons.mp hs with rfl | hs'
      · exact hx
      · exact hxs s hs'
    · intro a ha
      subst ha
      by_cases hlt : tsLt a.timestamp x.timestamp = true
      · exact tsLt_true_neg hlt hx
      · exact hacc a (by simp [pickStep, hlt])

theorem foldl_pickStep_isSome :
    ∀ (l : List StagingRating) (a : StagingRating),
      ∃ r, l.foldl pickStep (some a) = some r := by
  intro l
  induction l with
  | nil => intro a; exact ⟨a, rfl⟩
  | cons x xs ih =>
    intro a
    rw [List.foldl_cons]
    by_cases hlt : tsLt a.timestamp x.timestamp = true
    · simpa [pickStep, hlt] using ih x
    · simpa [pickStep, hlt] using ih a

theorem latestFor_some_mem {stg : List StagingRating} {k : Option Int × Option Int}
    {r : StagingRating} (h : latestFor stg k = some r) :
    r ∈ stg ∧ validRating r = true ∧ ratingKey r = k := by
  rcases foldl_pickStep_mem _ none r h with h' | h'
  · cases h'
  · have h1 := List.mem_filter.mp h'
    have h2 := List.mem_filter.mp h1.1
    exact ⟨h2.1, h2.2, by simpa using h1.2⟩

theorem latestFor_max {stg : List StagingRating} {k : Option Int × Option Int}
    {r s : StagingRating} (h : latestFor stg k = some r) (hs : s ∈ stg)
    (hv : validRating s = true) (hk : ratingKey s = k) :
    tsLt r.timestamp s.timestamp = false := by
  have hmem : s ∈ (stg.filter validRating).filter (fun x => ratingKey x = k) :=
    List.mem_filter.mpr ⟨List.mem_filter.mpr ⟨hs, hv⟩, by simpa using hk⟩
  exact (foldl_pickStep_max _ none r h).1 s hmem

theorem latestFor_isSome {stg : List StagingRating} {s : StagingRating}
    (hs : s ∈ stg) (hv : validRating s = true) :
    ∃ r, latestFor stg (ratingKey s) = some r := by
  have hmem : s ∈ (stg.filter validRating).filter (fun x => ratingKey x = ratingKey s) :=
    List.mem_filter.mpr ⟨List.mem_filter.mpr ⟨hs, hv⟩, by simp⟩
  unfold latestFor pickLatest
  cases hl : (stg.filter validRating).filter (fun x => ratingKey x = ratingKey s) with
  | nil => rw [hl] at hmem; cases hmem
  | cons y ys =>
    rw [List.foldl_cons]
    have : pickStep none y = some y := rfl
    rw [this]
    exact foldl_pickStep_isSome ys y

theorem validRating_fields {r : StagingRating} (h : validRating r = true) :
    ∃ u m q, r.userId = some u ∧ r.movieId = some m ∧ r.rating = some q := by
  unfold validRating at h
  rcases hu : r.userId with _ | u <;> rcases hm : r.movieId with _ | m <;>
    rcases hq : r.rating with _ | q <;> simp [hu, hm, hq] at h <;>
    exact ⟨u, m, q, rfl, rfl, rfl⟩

theorem mkCleanedRating_key {r : StagingRating} (h : validRating r = true) :
    (some (mkCleanedRating r).userId, some (mkCleanedRating r).movieId) = ratingKey r := by
  obtain ⟨u, m, q, hu, hm, _⟩ := validRating_fields h
  simp [mkCleanedRating, ratingKey, hu, hm]

/-! ## Helper lemmas about genre keys and the genre dimension -/

theorem lookupKey_isSome {gs : List String} {n : String} (h : n ∈ gs) :
    ∃ k, lookupKey gs n = some k := by
  induction gs with
  | nil => cases h
  | cons g gs ih =>
    by_cases hg : g = n
    · exact ⟨0, by simp [lookupKey, hg]⟩
    · rcases List.mem_cons.mp h with rfl | h'
      · exact absurd rfl hg
      · obtain ⟨k, hk⟩ := ih h'
        exact ⟨k + 1, by simp [lookupKey, hg, hk]⟩

theorem lookupKey_inj {gs : List String} {n1 n2 : String} :
    ∀ {k : Nat}, lookupKey gs n1 = some k → lookupKey gs n2 = some k → n1 = n2 := by
  induction gs with
  | nil => intro k h1; cases h1
  | cons g gs ih =>
    intro k h1 h2
    simp only [lookupKey] at h1 h2
    by_cases e1 : g = n1 <;> by_cases e2 : g = n2
    · rw [← e1, ← e2]
    · rw [if_pos e1] at h1
      rw [if_neg e2] at h2
      have hk0 : k = 0 := (Option.some.inj h1).symm
      obtain ⟨k', -, hk'⟩ := Option.map_eq_some'.mp h2
      omega
    · rw [if_neg e1] at h1
      rw [if_pos e2] at h2
      have hk0 : k = 0 := (Option.some.inj h2).symm
      obtain ⟨k', -, hk'⟩ := Option.map_eq_some'.mp h1
      omega
    · rw [if_neg e1] at h1
      rw [if_neg e2] at h2
      obtain ⟨ka, hka, hka'⟩ := Option.map_eq_some'.mp h1
      obtain ⟨kb, hkb, hkb'⟩ := Option.map_eq_some'.mp h2
      have : ka = kb := by omega
      exact ih hka (this ▸ hkb)

theorem mem_create_dim_genres {cm : List CleanedMovie} {n : String} :
    n ∈ create_dim_genres cm ↔
      ∃ m ∈ cm, !(m.genres = String.mk []) ∧ n ∈ (splitGenres m.genres).map pgTrim := by
  unfold create_dim_genres
  rw [(List.mergeSort_perm _ _).mem_iff, List.mem_dedup, List.mem_flatMap]
  constructor
  · rintro ⟨m, hm, hn⟩
    have hf := List.mem_filter.mp hm
    exact ⟨m, hf.1, hf.2, hn⟩
  · rintro ⟨m, hm, hne, hn⟩
    exact ⟨m, List.mem_filter.mpr ⟨hm, hne⟩, hn⟩

/-! ## Helper lemma for the quality gate -/

theorem run_all_checks_spec (cs : List QualityCheck) :
    ∀ st : CheckerState,
      (run_all_checks st cs).checks_passed = st.checks_passed + cs.countP check_passed ∧
      (run_all_checks st cs).checks_failed =
        st.checks_failed + cs.countP (fun c => !check_passed c) ∧
      (run_all_checks st cs).results = st.results ++ (cs.filter queryOk).map record_of := by
  induction cs with
  | nil => intro st; simp [run_all_checks]
  | cons c cs ih =>
    intro st
    have hfold : run_all_checks st (c :: cs) = run_all_checks (run_check st c).1 cs := rfl
    rw [hfold]
    obtain ⟨h1, h2, h3⟩ := ih (run_check st c).1
    rcases hq : c.query_result with e | v
    · have hcp : check_passed c = false := by simp [check_passed, hq]
      have hqo : queryOk c = false := by simp [queryOk, hq]
      refine ⟨?_, ?_, ?_⟩
      · rw [h1]; simp [run_check, hq, List.countP_cons, hcp]
      · rw [h2]; simp [run_check, hq, List.countP_cons, hcp]; omega
      · rw [h3]; simp [run_check, hq, List.filter_cons, hqo]
    · have hcp : check_passed c = c.expected_condition v := by simp [check_passed, hq]
      have hqo : queryOk c = true := by simp [queryOk, hq]
      have hro : record_of c =
          { check := c.check_name, status := statusString (c.expected_condition v),
            value := v, description := c.description } := by simp [record_of, hq]
      by_cases hev : c.expected_condition v = true
      · refine ⟨?_, ?_, ?_⟩
        · rw [h1]; simp [run_check, hq, List.countP_cons, hcp, hev]; omega
        · rw [h2]; simp [run_check, hq, List.countP_cons, hcp, hev]
        · rw [h3]; simp [run_check, hq, List.filter_cons, hqo, hro]
      · refine ⟨?_, ?_, ?_⟩
        · rw [h1]; simp [run_check, hq, List.countP_cons, hcp, hev]
        · rw [h2]; simp [run_check, hq, List.countP_cons, hcp, hev]; omega
        · rw [h3]; simp [run_check, hq, List.filter_cons, hqo, hro]

theorem countP_check_split (cs : List QualityCheck) :
    cs.countP check_passed + cs.countP (fun c => !check_passed c) = cs.length := by
  induction cs with
  | nil => rfl
  | cons c cs ih =>
    by_cases hc : check_passed c = true <;> simp [List.countP_cons, hc] <;> omega

/-! ## Claims -/

/-- C1: for every staging_ratings content, the rating-cleaning operation
produces cleaned_ratings with exactly one row per (user id, movie id) pair
among the rows passing the validity filter, and the retained row is one with
the maximum timestamp, so given two staging rows for a pair with timestamps
t1 < t2 only the t2 row survives. -/
theorem clean_ratings_dedup_latest (stg : List StagingRating) :
    ((clean_ratings_table stg).map cleanedKey).Nodup ∧
    (∀ s ∈ stg, validRating s = true →
      ∃ c ∈ clean_ratings_table stg, s.userId = some c.userId ∧ s.movieId = some c.movieId) ∧
    (∀ c ∈ clean_ratings_table stg,
      ∃ s ∈ stg, validRating s = true ∧
        s.userId = some c.userId ∧ s.movieId = some c.movieId ∧
        s.rating = some c.rating ∧ s.timestamp = c.rating_timestamp ∧
        ∀ s2 ∈ stg, validRating s2 = true → s2.userId = s.userId → s2.movieId = s.movieId →
          tsVal s2.timestamp ≤ tsVal s.timestamp) := by
  refine ⟨?_, ?_, ?_⟩
  · unfold clean_ratings_table
    rw [List.map_filterMap]
    refine List.Nodup.filterMap ?_ (List.nodup_dedup _)
    intro k k' b hb hb'
    simp only [Option.map_map, Option.mem_def, Option.map_eq_some'] at hb hb'
    obtain ⟨r, hr, hrb⟩ := hb
    obtain ⟨r', hr', hrb'⟩ := hb'
    obtain ⟨-, hv, hk⟩ := latestFor_some_mem hr
    obtain ⟨-, hv', hk'⟩ := latestFor_some_mem hr'
    have e1 : (some b.1, some b.2) = k := by
      rw [← hk, ← mkCleanedRating_key hv]
      simp [Function.comp, cleanedKey] at hrb
      rw [← hrb]
    have e2 : (some b.1, some b.2) = k' := by
      rw [← hk', ← mkCleanedRating_key hv']
      simp [Function.comp, cleanedKey] at hrb'
      rw [← hrb']
    rw [← e1, ← e2]
  · intro s hs hv
    obtain ⟨r, hr⟩ := latestFor_isSome hs hv
    refine ⟨mkCleanedRating r, ?_, ?_⟩
    · unfold clean_ratings_table
      refine List.mem_filterMap.mpr ⟨ratingKey s, ?_, ?_⟩
      · exact List.mem_dedup.mpr
          (List.mem_map_of_mem ratingKey (List.mem_filter.mpr ⟨hs, hv⟩))
      · rw [hr]; rfl
    · obtain ⟨-, hv', hk'⟩ := latestFor_some_mem hr
      have := mkCleanedRating_key hv'
      rw [hk'] at this
      unfold ratingKey at this
      exact ⟨(Prod.mk.injEq _ _ _ _).mp this.symm |>.1,
             (Prod.mk.injEq _ _ _ _).mp this.symm |>.2⟩
  · intro c hc
    unfold clean_ratings_table at hc
    obtain ⟨k, hk, hck⟩ := List.mem_filterMap.mp hc
    obtain ⟨r, hr, hrc⟩ := Option.map_eq_some'.mp hck
    obtain ⟨hrs, hrv, hrk⟩ := latestFor_some_mem hr
    obtain ⟨u, m, q, hu, hm, hq⟩ := validRating_fields hrv
    refine ⟨r, hrs, hrv, ?_, ?_, ?_, ?_, ?_⟩
    · rw [← hrc]; simp [mkCleanedRating, hu]
    · rw [← hrc]; simp [mkCleanedRating, hm]
    · rw [← hrc]; simp [mkCleanedRating, hq]
    · rw [← hrc]; rfl
    · intro s2 hs2 hv2 hu2 hm2
      have hk2 : ratingKey s2 = k := by
        rw [← hrk]; unfold ratingKey; rw [hu2, hm2]
      exact (tsLt_false_iff_le _ _).mp (latestFor_max hr hs2 hv2 hk2)

/-- Witness for C1 at the specification's end-to-end ratings scenario. -/
theorem clean_ratings_dedup_latest_witness :
    ((clean_ratings_table ratings_example_staging).map cleanedKey).Nodup ∧
    (clean_ratings_table ratings_example_staging).map
      (fun c => (c.userId, c.movieId, c.rating, c.rating_timestamp)) =
      [(1, 1, 5, some 200), (2, 2, 3, some 50)] :=
  ⟨(clean_ratings_dedup_latest ratings_example_staging).1, by decide⟩

/-- C2: the movie-cleaning operation is meant to leave at most one row per
movie identifier, but `SELECT DISTINCT` ranges over the whole projected row:
a movie id appearing under two titles yields two cleaned rows, contradicting
the codebase's own quality assertion "Movies - No Duplicate movieId" and the
`movie_id UNIQUE` constraint of `dim_movies`. -/
theorem cleaned_movies_duplicate_movieId_bug :
    (clean_movies_table dup_movies_staging).map CleanedMovie.movieId = [1, 1] ∧
    ¬ ((clean_movies_table dup_movies_staging).map CleanedMovie.movieId).Nodup := by
  refine ⟨by decide, by decide⟩

/-- C3: the transformer reads only the staging relations and drops and
recreates both cleaned relations, so running it twice over fixed staging
content yields identical cleaned_movies and cleaned_ratings content. -/
theorem transformer_idempotent (db : PipelineState) :
    run_transformer (run_transformer db) = run_transformer db ∧
    (run_transformer (run_transformer db)).cleaned_movies =
      (run_transformer db).cleaned_movies ∧
    (run_transformer (run_transformer db)).cleaned_ratings =
      (run_transformer db).cleaned_ratings :=
  ⟨rfl, rfl, rfl⟩

/-- C4 counterexample: the year pattern is matched against the untrimmed
title, so for the title `"Toy Story (1995) "` (trailing space) the trimmed
title matches the trailing-year pattern yet the code records no release year
and keeps the year suffix in the clean title — the trim-then-match claim is
false on this row. -/
theorem year_extraction_untrimmed_counterexample :
    endsWithYear (pgTrim ("Toy Story (1995) ")) = true ∧
    (clean_movies_table trailing_space_staging).map CleanedMovie.release_year = [none] ∧
    (clean_movies_table trailing_space_staging).map CleanedMovie.clean_title =
      [some ("Toy Story (1995)")] := by
  refine ⟨by decide, by decide, by decide⟩

/-- C4 (amended): for every staging row with non-null identifier the cleaned
table contains its row, whose title is the trimmed staging title and whose
release year and clean title are derived by matching the trailing-year
pattern against the UNTRIMMED staging title; the specification's two concrete
examples hold. -/
theorem clean_movies_rows_amended (stg : List StagingMovie) (s : StagingMovie) (i : Int)
    (hs : s ∈ stg) (hi : s.movieId = some i) :
    (∃ c ∈ clean_movies_table stg,
      c.movieId = i ∧ c.title = s.title.map pgTrim ∧
      c.release_year = (match s.title with
        | some t => if endsWithYear t then extractYear t else none
        | none => none) ∧
      c.clean_title = (match s.title with
        | some t => some (if endsWithYear t then pgTrim (stripYearSuffix t) else pgTrim t)
        | none => none)) ∧
    (cleanMovieRow 1 toy_story_row).release_year = some 1995 ∧
    (cleanMovieRow 1 toy_story_row).clean_title = some ("Toy Story") ∧
    (cleanMovieRow 2 heat_row).release_year = none ∧
    (cleanMovieRow 2 heat_row).clean_title = some ("Heat") := by
  refine ⟨⟨cleanMovieRow i s, ?_, rfl, rfl, ?_, ?_⟩, by decide, by decide, by decide, by decide⟩
  · exact List.mem_dedup.mpr
      (List.mem_filterMap.mpr ⟨s, hs, by rw [hi]; rfl⟩)
  · rcases hst : s.title with _ | t <;> simp [cleanMovieRow, hst]
  · rcases hst : s.title with _ | t <;> simp [cleanMovieRow, hst]

/-- Witness for C4 (amended) at the specification's example rows. -/
theorem clean_movies_rows_amended_witness :
    ∃ c ∈ clean_movies_table example_movies_staging,
      c.movieId = 1 ∧ c.title = some (pgTrim ("Toy Story (1995)")) ∧
      c.release_year = (if endsWithYear ("Toy Story (1995)") then
        extractYear ("Toy Story (1995)") else none) ∧
      c.clean_title = some (if endsWithYear ("Toy Story (1995)") then
        pgTrim (stripYearSuffix ("Toy Story (1995)")) else pgTrim ("Toy Story (1995)")) :=
  (clean_movies_rows_amended example_movies_staging toy_story_row 1 (by decide) rfl).1

/-- C5: the genre default uses `COALESCE(TRIM(genres), 'Unknown')`, which
replaces only NULL: an empty-string genre list survives as the empty string
instead of the "Unknown" sentinel, contradicting the codebase's own quality
assertion "Movies - No NULL Genres" (which also rejects empty strings); a
NULL genre list is defaulted as claimed. -/
theorem empty_genres_sentinel_bug :
    (clean_movies_table empty_genres_staging).map CleanedMovie.genres = [String.mk []] ∧
    (clean_movies_table null_genres_staging).map CleanedMovie.genres = [("Unknown")] := by
  refine ⟨by decide, by decide⟩

/-- C6 counterexample: `run_analytics.main` executes four analytics queries,
not five. -/
theorem analytics_reporter_not_five_queries : ¬ analytics_jobs.length = 5 := by
  decide

/-- C6 (amended): the Analytics Reporter executes four independent read-only
aggregate queries and writes exactly one delimited-text artifact with a
header row per query — four distinct output files — each overwritten on
every run. -/
theorem analytics_reporter_four_artifacts :
    analytics_jobs.length = 4 ∧
    run_analytics_main.length = 4 ∧
    (analytics_jobs.map AnalyticsJob.output_filename).Nodup ∧
    (run_analytics_main.map CsvArtifact.path).Nodup ∧
    analytics_jobs.all (fun j => sqlIsReadOnlySelect j.sql) = true ∧
    run_analytics_main.all (fun a => a.has_header_row && a.overwrites_existing) = true := by
  refine ⟨rfl, rfl, by decide, by decide, by decide, by decide⟩

/-- C7: over a battery of assertions whose queries all return scalars, every
assertion is executed (a failing one does not stop the later ones), each is
recorded with its pass/fail status, observed scalar and description, in
order, and the overall boolean is true iff every assertion passed. -/
theorem quality_gate_observational (cs : List QualityCheck)
    (h : ∀ c ∈ cs, queryOk c = true) :
    (run_all_checks initial_checker cs).checks_passed +
      (run_all_checks initial_checker cs).checks_failed = cs.length ∧
    (run_all_checks initial_checker cs).results = cs.map record_of ∧
    (data_quality_main cs = true ↔ ∀ c ∈ cs, check_passed c = true) := by
  obtain ⟨h1, h2, h3⟩ := run_all_checks_spec cs initial_checker
  refine ⟨?_, ?_, ?_⟩
  · rw [h1, h2]
    simp only [initial_checker, Nat.zero_add]
    exact countP_check_split cs
  · rw [h3]
    simp only [initial_checker, List.nil_append]
    congr 1
    exact List.filter_eq_self.mpr h
  · unfold data_quality_main
    rw [h2]
    simp only [initial_checker, Nat.zero_add, beq_iff_eq, List.countP_eq_zero]
    constructor
    · intro hz c hc
      have := hz c hc
      simpa using this
    · intro hp c hc
      simpa using hp c hc

/-- Witness for C7 at a concrete two-assertion battery whose first assertion
fails and whose second passes. -/
theorem quality_gate_observational_witness :
    (run_all_checks initial_checker checks_example).checks_passed +
      (run_all_checks initial_checker checks_example).checks_failed = 2 ∧
    (run_all_checks initial_checker checks_example).results = checks_example.map record_of ∧
    (data_quality_main checks_example = true ↔
      ∀ c ∈ checks_example, check_passed c = true) :=
  quality_gate_observational checks_example (by decide)

/-- C8 counterexample: `DataQualityChecker.run_check` catches the error its
SQL query raises and returns normally (recording one more failed check and
returning `False`, with nothing appended to `results`), so a database error
inside the quality-gate stage does not propagate — refuting the claim that
every operation of every stage re-raises database errors. -/
theorem run_check_error_not_raised :
    stageRaised (run_check_stage initial_checker err_check_example) = false ∧
    (run_check initial_checker err_check_example).1.checks_failed = 1 ∧
    (run_check initial_checker err_check_example).2 = false ∧
    (run_check initial_checker err_check_example).1.results = [] :=
  ⟨rfl, rfl, rfl, rfl⟩

/-- C8 (amended): the loader, the two transformer operations and the
warehouse builder let database errors propagate unchanged after logging,
whereas the quality gate's `run_check` never re-raises: it absorbs any query
error into a failed check and returns normally. -/
theorem error_propagation_amended :
    (∀ e : String, load_csv_to_staging true (Except.error e) = Except.error e) ∧
    (∀ e : String, clean_movies_stage (Except.error e) = Except.error e) ∧
    (∀ e : String, clean_ratings_stage (Except.error e) = Except.error e) ∧
    (∀ e : String, create_dim_movies_stage (Except.error e) = Except.error e) ∧
    (∀ (st : CheckerState) (c : QualityCheck),
      stageRaised (run_check_stage st c) = false) :=
  ⟨fun _ => rfl, fun _ => rfl, fun _ => rfl, fun _ => rfl, fun _ _ => rfl⟩

/-- C9: for every cleaned_movies content the bridge holds each
(movie, genre key) pair at most once, and a movie whose genre string is
"Action|Comedy" (and whose id appears on no other row) produces exactly two
bridge rows, one per split genre. -/
theorem bridge_movie_genres_unique_fanout (cm : List CleanedMovie) (m : CleanedMovie)
    (hm : m ∈ cm) (hg : m.genres = "Action|Comedy")
    (huniq : ∀ m2 ∈ cm, m2.movieId = m.movieId → m2 = m) :
    (create_bridge_movie_genres cm).Nodup ∧
    (create_bridge_movie_genres cm).countP (fun p => decide (p.1 = m.movieId)) = 2 := by
  have hsplit : splitGenres ("Action|Comedy") = [("Action"), ("Comedy")] := by decide
  have hATrim : pgTrim ("Action") = ("Action") := by decide
  have hCTrim : pgTrim ("Comedy") = ("Comedy") := by decide
  have hgne : !(m.genres = String.mk []) := by rw [hg]; decide
  have hA : ("Action") ∈ create_dim_genres cm :=
    mem_create_dim_genres.mpr ⟨m, hm, hgne, by rw [hg, hsplit]; simp [hATrim]⟩
  have hC : ("Comedy") ∈ create_dim_genres cm :=
    mem_create_dim_genres.mpr ⟨m, hm, hgne, by rw [hg, hsplit]; simp [hCTrim]⟩
  obtain ⟨kA, hkA⟩ := lookupKey_isSome hA
  obtain ⟨kB, hkB⟩ := lookupKey_isSome hC
  have hABne : kA ≠ kB := by
    intro e
    have : ("Action" : String) = ("Comedy") := lookupKey_inj hkA (e ▸ hkB)
    exact absurd this (by decide)
  refine ⟨List.nodup_dedup _, ?_⟩
  rw [List.countP_eq_length_filter]
  have hXmem : ∀ x, x ∈ (create_bridge_movie_genres cm).filter
      (fun p => decide (p.1 = m.movieId)) ↔
      x = (m.movieId, kA) ∨ x = (m.movieId, kB) := by
    intro x
    constructor
    · intro hx
      obtain ⟨hxB, hx1⟩ := List.mem_filter.mp hx
      have hx1' : x.1 = m.movieId := of_decide_eq_true hx1
      have hxL := List.mem_dedup.mp hxB
      obtain ⟨p, hpL, hpx⟩ := List.mem_filterMap.mp hxL
      obtain ⟨k', hk', hpk⟩ := Option.map_eq_some'.mp hpx
      obtain ⟨m2, hm2, hpm2⟩ := List.mem_flatMap.mp hpL
      obtain ⟨gn, hgn, hgnp⟩ := List.mem_map.mp hpm2
      have hp1 : p.1 = m2.movieId := by rw [← hgnp]
      have hx1p : x.1 = p.1 := by rw [← hpk]
      have hmm : m2 = m := huniq m2 hm2 (by rw [← hp1, ← hx1p, hx1'])
      rw [hmm, hg, hsplit] at hgn
      have hx2 : x = (p.1, k') := hpk.symm
      rcases List.mem_cons.mp hgn with rfl | hgn'
      · rw [hATrim] at hgnp
        have hp2 : p.2 = ("Action") := by rw [← hgnp]
        rw [hp2, hkA] at hk'
        cases hk'
        left
        rw [hx2, Prod.mk.injEq]
        exact ⟨by rw [← hx1p, hx1'], rfl⟩
      · rcases List.mem_cons.mp hgn' with rfl | h
        · rw [hCTrim] at hgnp
          have hp2 : p.2 = ("Comedy") := by rw [← hgnp]
          rw [hp2, hkB] at hk'
          cases hk'
          right
          rw [hx2, Prod.mk.injEq]
          exact ⟨by rw [← hx1p, hx1'], rfl⟩
        · cases h
    · intro hx
      have hmemA : ("Action") ∈ splitGenres m.genres := by
        rw [hg, hsplit]; exact List.mem_cons_self _ _
      have hmemC : ("Comedy") ∈ splitGenres m.genres := by
        rw [hg, hsplit]; simp
      rcases hx with rfl | rfl
      · refine List.mem_filter.mpr ⟨List.mem_dedup.mpr ?_, by simp⟩
        refine List.mem_filterMap.mpr ⟨(m.movieId, ("Action")), ?_, by simp [hkA]⟩
        exact List.mem_flatMap.mpr ⟨m, hm,
          List.mem_map.mpr ⟨("Action"), hmemA, by rw [hATrim]⟩⟩
      · refine List.mem_filter.mpr ⟨List.mem_dedup.mpr ?_, by simp⟩
        refine List.mem_filterMap.mpr ⟨(m.movieId, ("Comedy")), ?_, by simp [hkB]⟩
        exact List.mem_flatMap.mpr ⟨m, hm,
          List.mem_map.mpr ⟨("Comedy"), hmemC, by rw [hCTrim]⟩⟩
  have hnd : ((create_bridge_movie_genres cm).filter
      (fun p => decide (p.1 = m.movieId))).Nodup :=
    (List.nodup_dedup _).filter _
  have hfs : ((create_bridge_movie_genres cm).filter
      (fun p => decide (p.1 = m.movieId))).toFinset =
      {(m.movieId, kA), (m.movieId, kB)} := by
    ext x
    simp only [List.mem_toFinset, hXmem x, Finset.mem_insert, Finset.mem_singleton]
  rw [← List.toFinset_card_of_nodup hnd, hfs]
  exact Finset.card_pair (fun h => hABne (congrArg Prod.snd h))

/-- Witness for C9 at a one-movie cleaned relation with genre string
"Action|Comedy". -/
theorem bridge_movie_genres_unique_fanout_witness :
    (create_bridge_movie_genres bridge_example_movies).Nodup ∧
    (create_bridge_movie_genres bridge_example_movies).countP
      (fun p => decide (p.1 = (1 : Int))) = 2 :=
  bridge_movie_genres_unique_fanout bridge_example_movies
    { movieId := 1, title := some ("AC"), release_year := none,
      clean_title := some ("AC"), genres := "Action|Comedy" }
    (by decide) rfl (by decide)

/-- C10 counterexample: cleaned content whose titles are all non-null can
still make the `dim_movies` insert raise, because a duplicated movie id
violates the `movie_id UNIQUE` constraint — refuting the claim that non-null
titles suffice for the insert to succeed. -/
theorem dim_movies_nonnull_title_insert_fails :
    (clean_movies_table dup_movies_staging).all (fun m => m.title.isSome) = true ∧
    stageRaised (create_dim_movies (clean_movies_table dup_movies_staging)) = true := by
  refine ⟨by decide, by decide⟩

/-- C10 (amended): movie cleaning drops rows only for a null movie
identifier, so cleaned_movies can contain a row with a NULL title; on any
such content `create_dim_movies` raises the NOT NULL violation, and when
every title is non-null AND the movie identifiers are pairwise distinct the
insert succeeds with one `dim_movies` row per cleaned row (with the
identifiers duplicated it raises the UNIQUE violation instead). -/
theorem dim_movies_title_constraint (cm : List CleanedMovie) :
    ((∃ m ∈ cm, m.title = none) → create_dim_movies cm = Except.error null_title_error) ∧
    ((∀ m ∈ cm, m.title ≠ none) → (cm.map CleanedMovie.movieId).Nodup →
      create_dim_movies cm = Except.ok (cm.map dimMovieRow)) ∧
    (clean_movies_table null_title_staging).map CleanedMovie.title = [none] := by
  refine ⟨?_, ?_, by decide⟩
  · rintro ⟨m, hm, hmt⟩
    unfold create_dim_movies
    rw [if_pos]
    exact List.any_eq_true.mpr ⟨m, hm, by simp [hmt]⟩
  · intro ht hnd
    have hfalse : cm.any (fun m => m.title.isNone) = false := by
      rw [List.any_eq_false]
      intro m hm hmt
      exact ht m hm (Option.isNone_iff_eq_none.mp hmt)
    unfold create_dim_movies
    rw [hfalse, if_neg (by simp), if_pos hnd]

/-- Witness for C10 (amended): the NULL-title content produced by cleaning
`null_title_staging` makes the insert raise, and a well-formed singleton
content inserts one row. -/
theorem dim_movies_title_constraint_witness :
    create_dim_movies (clean_movies_table null_title_staging) =
      Except.error null_title_error ∧
    create_dim_movies bridge_example_movies =
      Except.ok (bridge_example_movies.map dimMovieRow) :=
  ⟨(dim_movies_title_constraint (clean_movies_table null_title_staging)).1 (by decide),
   (dim_movies_title_constraint bridge_example_movies).2.1 (by decide) (by decide)⟩
